import Mathlib

/-!
Verification of the frame renderer in
PyQt5_Draw_a_Sphere_With_Background_Using_OpenGL.py.

The renderer state (class OpenGLWindow) is embedded as a record; the
OpenGL / GLU calls issued by paintGL, render_background, resizeGL and
draw_textured_sphere are embedded as a trace of commands, and a small
machine interprets the matrix-stack and depth-test commands so that
frame conditions (state restored after the background pass) can be
stated.  Angles and coordinates are rationals; the Python source only
ever adds the exact dyadic value 0.5 to the angle and passes literal
constants, so no rounding is lost.
-/

abbrev Q := ℚ

/-- One OpenGL / GLU call, as issued by the Python source. -/
inductive GLCmd where
  | clear
  | loadIdentity
  | matrixModeProjection
  | matrixModeModelview
  | pushMatrix
  | popMatrix
  | ortho2D (l r b t : Q)
  | perspective (fovy aspect zNear zFar : Q)
  | viewport (x y w h : Nat)
  | disableDepthTest
  | enableDepthTest
  | bindTexture (id : Option Nat)
  | beginQuads
  | endPrim
  | texCoord2f (u v : Q)
  | vertex2f (x y : Q)
  | translatef (x y z : Q)
  | rotatef (angle x y z : Q)
  | scalef (x y z : Q)
  | newQuadric
  | quadricTexture
  | gluSphere (radius : Q) (slices stacks_ : Nat)
  | deleteQuadric
deriving DecidableEq, Repr

/-- The fields of the Python class OpenGLWindow that the claims are
about: the rotation angle, the two texture handles, the two image
paths, the timer, and the repaint request issued by update_frame. -/
structure OpenGLWindow where
  angle : Q
  texture : Option Nat
  texture_image : String
  bg_texture : Option Nat
  background_image : String
  timerStarted : Bool
  timerIntervalMs : Nat
  pendingUpdate : Bool
deriving DecidableEq, Repr

namespace OpenGLWindow

/-- The constructor (Python method named with double underscores around
the word init): angle 0, both texture handles unset (None), the image
paths stored, and the repaint timer started with a 16 ms interval. -/
def init (texture_image background_image : String) : OpenGLWindow :=
  { angle := 0
    texture := none
    texture_image := texture_image
    bg_texture := none
    background_image := background_image
    timerStarted := true
    timerIntervalMs := 16
    pendingUpdate := false }

end OpenGLWindow

/-- The component is Uninitialized while no sphere texture handle has
been stored (self.texture is still None). -/
def Uninitialized (s : OpenGLWindow) : Bool := s.texture.isNone

/-- The component is Ready once a sphere texture handle is stored. -/
def Ready (s : OpenGLWindow) : Bool := s.texture.isSome

/-- What the file system / image decoder knows about one image file:
its pixel size and whether the decoder accepts it. -/
structure ImageFile where
  width : Nat
  height : Nat
  decodable : Bool
deriving DecidableEq, Repr

/-- The image environment: which paths are readable, and to what file. -/
def ImageEnv := String → Option ImageFile

/-- The error taxonomy of the spec: ImageLoadError when a path is
unreadable or undecodable, TextureUploadError when the upload fails. -/
inductive RenderError where
  | imageLoadError (path : String)
  | textureUploadError
deriving DecidableEq, Repr

/-- Method load_texture: Image.open raises (propagated as an error)
when the path is unreadable or the file undecodable; otherwise the
image is flipped, converted to RGBA, uploaded, and the generated
texture id is returned. -/
def load_texture (env : ImageEnv) (texture_id : Nat) (image_file : String) :
    Except RenderError Nat :=
  match env image_file with
  | none => Except.error (RenderError.imageLoadError image_file)
  | some img =>
      if img.decodable then Except.ok texture_id
      else Except.error (RenderError.imageLoadError image_file)

/-- Method initializeGL, with Python exception propagation made
explicit: the result pairs the state as left by the method (fields
assigned before a raise keep their new values) with the raised error,
if any.  The sphere texture is loaded first and stored in
self.texture; the background texture is loaded only when the
background path is nonempty. -/
def initializeGLRun (env : ImageEnv) (s : OpenGLWindow) :
    OpenGLWindow × Option RenderError :=
  match load_texture env 1 s.texture_image with
  | Except.error e => (s, some e)
  | Except.ok t =>
      let s1 := { s with texture := some t }
      if s1.background_image.length > 0 then
        match load_texture env 2 s1.background_image with
        | Except.error e => (s1, some e)
        | Except.ok b => ({ s1 with bg_texture := some b }, none)
      else (s1, none)

/-- Method resizeGL: set the viewport, load a perspective projection
with field of view 45, aspect w / h (1.0 when h = 0), near 0.1 and far
100.0, and switch back to the modelview matrix. -/
def resizeGL (w h : Nat) : List GLCmd :=
  [GLCmd.viewport 0 0 w h,
   GLCmd.matrixModeProjection,
   GLCmd.loadIdentity,
   GLCmd.perspective 45 (if h ≠ 0 then (w : Q) / (h : Q) else 1) (1/10) 100,
   GLCmd.matrixModeModelview]

/-- Method update_frame: increment the rotation angle by 0.5 and
request a repaint. -/
def update_frame (s : OpenGLWindow) : OpenGLWindow :=
  { s with angle := s.angle + 1/2, pendingUpdate := true }

/-- Method render_background: disable depth testing, push an
orthographic projection over the whole window, draw one textured quad
with UV corners matched to the screen corners, restore both matrices
and re-enable depth testing.  The w and h arguments are the widget
width and height. -/
def render_background (bg_texture : Option Nat) (w h : Q) : List GLCmd :=
  [GLCmd.disableDepthTest,
   GLCmd.matrixModeProjection,
   GLCmd.pushMatrix,
   GLCmd.loadIdentity,
   GLCmd.ortho2D 0 w 0 h,
   GLCmd.matrixModeModelview,
   GLCmd.pushMatrix,
   GLCmd.loadIdentity,
   GLCmd.bindTexture bg_texture,
   GLCmd.beginQuads,
   GLCmd.texCoord2f 0 0, GLCmd.vertex2f 0 0,
   GLCmd.texCoord2f 1 0, GLCmd.vertex2f w 0,
   GLCmd.texCoord2f 1 1, GLCmd.vertex2f w h,
   GLCmd.texCoord2f 0 1, GLCmd.vertex2f 0 h,
   GLCmd.endPrim,
   GLCmd.matrixModeProjection,
   GLCmd.popMatrix,
   GLCmd.matrixModeModelview,
   GLCmd.popMatrix,
   GLCmd.enableDepthTest]

/-- Method draw_textured_sphere: bind the sphere texture, create a
fresh quadric, enable texturing on it, draw the sphere, delete the
quadric. -/
def draw_textured_sphere (texture : Option Nat) (radius : Q)
    (slices stacks_ : Nat) : List GLCmd :=
  [GLCmd.bindTexture texture,
   GLCmd.newQuadric,
   GLCmd.quadricTexture,
   GLCmd.gluSphere radius slices stacks_,
   GLCmd.deleteQuadric]

/-- Method paintGL: clear, reset the modelview matrix, draw the
background when a background texture exists, translate 4.5 units along
the negative view axis, rotate by the current angle about the axis
(2, -1, -1), apply the identity scale, and draw the textured sphere of
radius 1.5 with 32 slices and 32 stacks. -/
def paintGL (s : OpenGLWindow) (w h : Q) : List GLCmd :=
  [GLCmd.clear, GLCmd.loadIdentity]
  ++ (match s.bg_texture with
      | some b => render_background (some b) w h
      | none => [])
  ++ [GLCmd.translatef 0 0 (-(9/2)),
      GLCmd.rotatef s.angle 2 (-1) (-1),
      GLCmd.scalef 1 1 1]
  ++ draw_textured_sphere s.texture (3/2) 32 32

/-- Discriminator for the background quad opening command. -/
def isBeginQuads : GLCmd → Bool
  | GLCmd.beginQuads => true
  | _ => false

/-- Discriminator for the sphere draw command. -/
def isSphereCmd : GLCmd → Bool
  | GLCmd.gluSphere _ _ _ => true
  | _ => false

/-- Discriminator for the depth-test disabling command. -/
def isDisableDepth : GLCmd → Bool
  | GLCmd.disableDepthTest => true
  | _ => false

/-- Discriminator for the depth-test enabling command. -/
def isEnableDepth : GLCmd → Bool
  | GLCmd.enableDepthTest => true
  | _ => false

/-- Discriminator for quadric creation. -/
def isNewQuadric : GLCmd → Bool
  | GLCmd.newQuadric => true
  | _ => false

/-- Discriminator for quadric deletion. -/
def isDeleteQuadric : GLCmd → Bool
  | GLCmd.deleteQuadric => true
  | _ => false

/-- One matrix-altering operation, kept symbolic: the current matrix of
each mode is represented as the list of operations applied since the
last glLoadIdentity. -/
inductive MatOp where
  | ortho2D (l r b t : Q)
  | perspective (fovy aspect zNear zFar : Q)
  | translate (x y z : Q)
  | rotate (a x y z : Q)
  | scale (x y z : Q)
deriving DecidableEq, Repr

/-- Interpreter state for the fixed-function pipeline: the active
matrix mode, the current matrix and stack of each mode, and the
depth-test flag. -/
structure GLMachine where
  projMode : Bool
  projCur : List MatOp
  projStack : List (List MatOp)
  mvCur : List MatOp
  mvStack : List (List MatOp)
  depthTest : Bool
deriving DecidableEq, Repr

/-- Append a matrix operation to the current matrix of the active
mode (OpenGL right-multiplies the current matrix). -/
def GLMachine.applyOp (m : GLMachine) (op : MatOp) : GLMachine :=
  if m.projMode then { m with projCur := m.projCur ++ [op] }
  else { m with mvCur := m.mvCur ++ [op] }

/-- One step of the interpreter: matrix-mode switches, identity loads,
pushes, pops, matrix multiplications, and the depth-test toggles;
every other command leaves the machine unchanged. -/
def stepCmd (m : GLMachine) : GLCmd → GLMachine
  | GLCmd.matrixModeProjection => { m with projMode := true }
  | GLCmd.matrixModeModelview => { m with projMode := false }
  | GLCmd.loadIdentity =>
      if m.projMode then { m with projCur := [] } else { m with mvCur := [] }
  | GLCmd.pushMatrix =>
      if m.projMode then { m with projStack := m.projCur :: m.projStack }
      else { m with mvStack := m.mvCur :: m.mvStack }
  | GLCmd.popMatrix =>
      if m.projMode then
        { m with projCur := m.projStack.headD [], projStack := m.projStack.tail }
      else
        { m with mvCur := m.mvStack.headD [], mvStack := m.mvStack.tail }
  | GLCmd.ortho2D l r b t => m.applyOp (MatOp.ortho2D l r b t)
  | GLCmd.perspective f a zn zf => m.applyOp (MatOp.perspective f a zn zf)
  | GLCmd.translatef x y z => m.applyOp (MatOp.translate x y z)
  | GLCmd.rotatef a x y z => m.applyOp (MatOp.rotate a x y z)
  | GLCmd.scalef x y z => m.applyOp (MatOp.scale x y z)
  | GLCmd.disableDepthTest => { m with depthTest := false }
  | GLCmd.enableDepthTest => { m with depthTest := true }
  | _ => m

/-- Run the interpreter over a trace of commands. -/
def runCmds (m : GLMachine) (cs : List GLCmd) : GLMachine :=
  cs.foldl stepCmd m

/-- A concrete image environment in which earth.jpg and stars.png are
readable and decodable and every other path is unreadable. -/
def envEarthStars : ImageEnv := fun p =>
  if p = "earth.jpg" then some { width := 1024, height := 512, decodable := true }
  else if p = "stars.png" then some { width := 800, height := 600, decodable := true }
  else none

/-! Helper lemmas about iterated ticks. -/

/-- Each tick adds exactly one half to the angle, so n ticks add n / 2. -/
theorem angle_iterate (s : OpenGLWindow) (n : Nat) :
    (update_frame^[n] s).angle = s.angle + (n : Q) / 2 := by
  induction n with
  | zero => simp
  | succ k ih =>
      rw [Function.iterate_succ_apply', update_frame]
      push_cast
      rw [ih]
      ring

/-- Ticks leave every field other than the angle and the repaint
request unchanged. -/
theorem fields_iterate (s : OpenGLWindow) (n : Nat) :
    (update_frame^[n] s).texture = s.texture ∧
    (update_frame^[n] s).bg_texture = s.bg_texture ∧
    (update_frame^[n] s).texture_image = s.texture_image ∧
    (update_frame^[n] s).background_image = s.background_image ∧
    (update_frame^[n] s).timerStarted = s.timerStarted ∧
    (update_frame^[n] s).timerIntervalMs = s.timerIntervalMs := by
  induction n with
  | zero => simp
  | succ k ih =>
      rw [Function.iterate_succ_apply', update_frame]
      simpa using ih

/-- C1: after initialize("earth.jpg", "") and ten advances, renderFrame
at viewport 800x600 produces a frame whose rotation angle is 5.0, with
no background draw, drawing the sphere with radius 1.5 and a 32 by 32
tessellation about axis (2, -1, -1), after translating the model 4.5
units along the negative view axis; the full command trace is given
explicitly. -/
theorem claim1_scenario_frame :
    (update_frame^[10]
      (initializeGLRun envEarthStars (OpenGLWindow.init "earth.jpg" "")).1).angle = 5 ∧
    (initializeGLRun envEarthStars (OpenGLWindow.init "earth.jpg" "")).2 = none ∧
    paintGL (update_frame^[10]
        (initializeGLRun envEarthStars (OpenGLWindow.init "earth.jpg" "")).1) 800 600 =
      [GLCmd.clear, GLCmd.loadIdentity,
       GLCmd.translatef 0 0 (-(9/2)),
       GLCmd.rotatef 5 2 (-1) (-1),
       GLCmd.scalef 1 1 1,
       GLCmd.bindTexture (some 1),
       GLCmd.newQuadric, GLCmd.quadricTexture,
       GLCmd.gluSphere (3/2) 32 32,
       GLCmd.deleteQuadric] ∧
    (paintGL (update_frame^[10]
        (initializeGLRun envEarthStars (OpenGLWindow.init "earth.jpg" "")).1) 800 600).countP
      isBeginQuads = 0 := by
  have h1 : (initializeGLRun envEarthStars (OpenGLWindow.init "earth.jpg" "")).1 =
      { angle := 0, texture := some 1, texture_image := "earth.jpg", bg_texture := none,
        background_image := "", timerStarted := true, timerIntervalMs := 16,
        pendingUpdate := false } := rfl
  have h2 : update_frame^[10]
      ({ angle := 0, texture := some 1, texture_image := "earth.jpg", bg_texture := none,
         background_image := "", timerStarted := true, timerIntervalMs := 16,
         pendingUpdate := false } : OpenGLWindow) =
      { angle := 5, texture := some 1, texture_image := "earth.jpg", bg_texture := none,
        background_image := "", timerStarted := true, timerIntervalMs := 16,
        pendingUpdate := true } := by
    norm_num [Function.iterate_succ_apply', update_frame]
  rw [h1, h2]
  refine ⟨rfl, rfl, rfl, rfl⟩

/-- C2: the perspective projection set by resizeGL always uses field of
view 45, near 0.1 and far 100.0; its aspect ratio is w / h whenever
h is nonzero and exactly 1.0 when h is zero. -/
theorem claim2_resize_aspect (w h : Nat) :
    (h ≠ 0 → GLCmd.perspective 45 ((w : Q) / (h : Q)) (1/10) 100 ∈ resizeGL w h) ∧
    (h = 0 → GLCmd.perspective 45 1 (1/10) 100 ∈ resizeGL w h) ∧
    (∀ f a zn zf : Q, GLCmd.perspective f a zn zf ∈ resizeGL w h →
      f = 45 ∧ a = (if h ≠ 0 then (w : Q) / (h : Q) else 1) ∧ zn = 1/10 ∧ zf = 100) := by
  refine ⟨fun hne => ?_, fun h0 => ?_, fun f a zn zf hmem => ?_⟩
  · simp [resizeGL, hne]
  · simp [resizeGL, h0]
  · simp only [resizeGL, List.mem_cons, List.mem_singleton] at hmem
    rcases hmem with h | h | h | h | h <;> simp_all

/-- C2 witness: at (800, 600) the aspect is 800 / 600 and at (800, 0)
it is 1. -/
theorem claim2_resize_aspect_witness :
    GLCmd.perspective 45 ((800 : Q) / (600 : Q)) (1/10) 100 ∈ resizeGL 800 600 ∧
    GLCmd.perspective 45 1 (1/10) 100 ∈ resizeGL 800 0 :=
  ⟨(claim2_resize_aspect 800 600).1 (by norm_num),
   (claim2_resize_aspect 800 0).2.1 rfl⟩

/-- C3: starting from the constructed state, n ticks yield angle
n * 0.5; the angle never decreases across calls (no wrap is applied:
the angle is exactly linear in the number of ticks). -/
theorem claim3_advance_angle (ti bi : String) (n m : Nat) :
    (update_frame^[n] (OpenGLWindow.init ti bi)).angle = (n : Q) / 2 ∧
    (n ≤ m → (update_frame^[n] (OpenGLWindow.init ti bi)).angle ≤
      (update_frame^[m] (OpenGLWindow.init ti bi)).angle) := by
  have hn := angle_iterate (OpenGLWindow.init ti bi) n
  have hm := angle_iterate (OpenGLWindow.init ti bi) m
  have h0 : (OpenGLWindow.init ti bi).angle = 0 := rfl
  rw [h0] at hn hm
  refine ⟨by rw [hn]; ring, fun hle => ?_⟩
  rw [hn, hm]
  have : (n : Q) ≤ (m : Q) := by exact_mod_cast hle
  linarith

/-- C3 witness: ten ticks give angle 5 and three ticks give no more
than seven ticks do. -/
theorem claim3_advance_angle_witness :
    (update_frame^[10] (OpenGLWindow.init "earth.jpg" "")).angle = (10 : Q) / 2 ∧
    (update_frame^[3] (OpenGLWindow.init "earth.jpg" "")).angle ≤
      (update_frame^[7] (OpenGLWindow.init "earth.jpg" "")).angle :=
  ⟨(claim3_advance_angle "earth.jpg" "" 10 0).1,
   (claim3_advance_angle "earth.jpg" "" 3 7).2 (by norm_num)⟩

/-- C9: a tick mutates only the rotation angle, adding 0.5, and
requests a repaint; both texture handles, both image paths and the
timer fields are untouched. -/
theorem claim9_tick_frame_effect (s : OpenGLWindow) :
    (update_frame s).angle = s.angle + 1/2 ∧
    (update_frame s).pendingUpdate = true ∧
    (update_frame s).texture = s.texture ∧
    (update_frame s).bg_texture = s.bg_texture ∧
    (update_frame s).texture_image = s.texture_image ∧
    (update_frame s).background_image = s.background_image ∧
    (update_frame s).timerStarted = s.timerStarted ∧
    (update_frame s).timerIntervalMs = s.timerIntervalMs := by
  simp [update_frame]


/-- C4: when the sphere texture path is unreadable or undecodable,
initialization raises ImageLoadError and leaves the freshly
constructed component unchanged, hence Uninitialized with no sphere
texture handle stored. -/
theorem claim4_image_load_error (env : ImageEnv) (ti bi : String)
    (hbad : ∀ img, env ti = some img → img.decodable = false) :
    initializeGLRun env (OpenGLWindow.init ti bi) =
      (OpenGLWindow.init ti bi, some (RenderError.imageLoadError ti)) ∧
    Uninitialized (initializeGLRun env (OpenGLWindow.init ti bi)).1 = true ∧
    (initializeGLRun env (OpenGLWindow.init ti bi)).1.texture = none := by
  have hload : load_texture env 1 ti = Except.error (RenderError.imageLoadError ti) := by
    unfold load_texture
    cases henv : env ti with
    | none => rfl
    | some img => simp [hbad img henv]
  have hproj : (OpenGLWindow.init ti bi).texture_image = ti := rfl
  have hmain : initializeGLRun env (OpenGLWindow.init ti bi) =
      (OpenGLWindow.init ti bi, some (RenderError.imageLoadError ti)) := by
    unfold initializeGLRun
    rw [hproj, hload]
  refine ⟨hmain, ?_, ?_⟩ <;> rw [hmain] <;> rfl

/-- C4 witness: an environment in which no path is readable. -/
theorem claim4_image_load_error_witness :
    initializeGLRun (fun _ => none) (OpenGLWindow.init "missing.jpg" "") =
      (OpenGLWindow.init "missing.jpg" "",
        some (RenderError.imageLoadError "missing.jpg")) ∧
    Uninitialized (initializeGLRun (fun _ => none)
      (OpenGLWindow.init "missing.jpg" "")).1 = true :=
  ⟨(claim4_image_load_error (fun _ => none) "missing.jpg" ""
      (fun _ h => by cases h)).1,
   (claim4_image_load_error (fun _ => none) "missing.jpg" ""
      (fun _ h => by cases h)).2.1⟩

/-- C5: initialization with an empty background path succeeds whenever
the sphere texture loads, reaching Ready with no background texture,
and every later frame, after any number of ticks, issues no
background-quad draw and no depth-test toggle at all. -/
theorem claim5_empty_background (env : ImageEnv) (ti : String) (img : ImageFile)
    (henv : env ti = some img) (hdec : img.decodable = true) :
    initializeGLRun env (OpenGLWindow.init ti "") =
      ({ OpenGLWindow.init ti "" with texture := some 1 }, none) ∧
    Ready ({ OpenGLWindow.init ti "" with texture := some 1 } : OpenGLWindow) = true ∧
    ({ OpenGLWindow.init ti "" with texture := some 1 } : OpenGLWindow).bg_texture = none ∧
    ∀ (k : Nat) (w h : Q),
      (paintGL (update_frame^[k]
        ({ OpenGLWindow.init ti "" with texture := some 1 } : OpenGLWindow)) w h).countP
        isBeginQuads = 0 ∧
      (paintGL (update_frame^[k]
        ({ OpenGLWindow.init ti "" with texture := some 1 } : OpenGLWindow)) w h).countP
        isDisableDepth = 0 := by
  have hload : load_texture env 1 ti = Except.ok 1 := by
    simp [load_texture, henv, hdec]
  have hproj : (OpenGLWindow.init ti "").texture_image = ti := rfl
  refine ⟨?_, rfl, rfl, ?_⟩
  · unfold initializeGLRun
    rw [hproj, hload]
    rfl
  · intro k w h
    have hbg : (update_frame^[k]
        ({ OpenGLWindow.init ti "" with texture := some 1 } : OpenGLWindow)).bg_texture
        = none :=
      (fields_iterate { OpenGLWindow.init ti "" with texture := some 1 } k).2.1
    constructor <;>
    simp [paintGL, hbg, draw_textured_sphere, List.countP, List.countP.go,
      isBeginQuads, isDisableDepth]

/-- C5 witness: the concrete environment in which earth.jpg decodes. -/
theorem claim5_empty_background_witness :
    initializeGLRun envEarthStars (OpenGLWindow.init "earth.jpg" "") =
      ({ OpenGLWindow.init "earth.jpg" "" with texture := some 1 }, none) ∧
    (paintGL (update_frame^[3]
      ({ OpenGLWindow.init "earth.jpg" "" with texture := some 1 } : OpenGLWindow))
      800 600).countP isBeginQuads = 0 :=
  ⟨(claim5_empty_background envEarthStars "earth.jpg"
      { width := 1024, height := 512, decodable := true } rfl rfl).1,
   ((claim5_empty_background envEarthStars "earth.jpg"
      { width := 1024, height := 512, decodable := true } rfl rfl).2.2.2 3 800 600).1⟩

/-- C10: the constructor starts the 16 ms repaint timer while the
component is still Uninitialized; ticks apply in that state and leave
it Uninitialized while raising the angle to k / 2, so when
initialization succeeds only after k timer ticks, the first painted
frame rotates by k / 2, which exceeds 0.5 as soon as two ticks have
fired. -/
theorem claim10_timer_before_init (ti bi : String) (k : Nat) :
    (OpenGLWindow.init ti bi).timerStarted = true ∧
    (OpenGLWindow.init ti bi).timerIntervalMs = 16 ∧
    Uninitialized (OpenGLWindow.init ti bi) = true ∧
    Uninitialized (update_frame^[k] (OpenGLWindow.init ti bi)) = true ∧
    (update_frame^[k] (OpenGLWindow.init ti bi)).angle = (k : Q) / 2 ∧
    (2 ≤ k → (1 : Q) / 2 < (update_frame^[k] (OpenGLWindow.init ti bi)).angle) ∧
    GLCmd.rotatef ((k : Q) / 2) 2 (-1) (-1) ∈
      paintGL (initializeGLRun envEarthStars
        (update_frame^[k] (OpenGLWindow.init "earth.jpg" ""))).1 800 600 := by
  have hfields := fields_iterate (OpenGLWindow.init ti bi) k
  have ht : (update_frame^[k] (OpenGLWindow.init ti bi)).texture = none := hfields.1
  have hangle : (update_frame^[k] (OpenGLWindow.init ti bi)).angle = (k : Q) / 2 := by
    have h := angle_iterate (OpenGLWindow.init ti bi) k
    have h0 : (OpenGLWindow.init ti bi).angle = 0 := rfl
    rw [h0, zero_add] at h
    exact h
  have hfe := fields_iterate (OpenGLWindow.init "earth.jpg" "") k
  have hbi : (update_frame^[k] (OpenGLWindow.init "earth.jpg" "")).background_image = "" :=
    hfe.2.2.2.1
  have hbg : (update_frame^[k] (OpenGLWindow.init "earth.jpg" "")).bg_texture = none :=
    hfe.2.1
  have hae : (update_frame^[k] (OpenGLWindow.init "earth.jpg" "")).angle = (k : Q) / 2 := by
    have h := angle_iterate (OpenGLWindow.init "earth.jpg" "") k
    have h0 : (OpenGLWindow.init "earth.jpg" "").angle = 0 := rfl
    rw [h0, zero_add] at h
    exact h
  have hload : load_texture envEarthStars 1
      (update_frame^[k] (OpenGLWindow.init "earth.jpg" "")).texture_image =
      Except.ok 1 := by
    rw [hfe.2.2.1]
    rfl
  have hinit : (initializeGLRun envEarthStars
      (update_frame^[k] (OpenGLWindow.init "earth.jpg" ""))).1 =
      { update_frame^[k] (OpenGLWindow.init "earth.jpg" "") with texture := some 1 } := by
    unfold initializeGLRun
    rw [hload]
    simp [hbi]
  refine ⟨rfl, rfl, rfl, ?_, hangle, fun h2 => ?_, ?_⟩
  · simp [Uninitialized, ht]
  · rw [hangle]
    have h2q : (2 : Q) ≤ (k : Q) := by exact_mod_cast h2
    linarith
  · rw [hinit]
    have hbg1 : ({ update_frame^[k] (OpenGLWindow.init "earth.jpg" "") with
        texture := some 1 } : OpenGLWindow).bg_texture = none := hbg
    simp [paintGL, hbg1, draw_textured_sphere, hae]

/-- C10 witness: after exactly two pre-initialization ticks the first
painted frame rotates by 1, which exceeds 0.5. -/
theorem claim10_timer_before_init_witness :
    Uninitialized (update_frame^[2] (OpenGLWindow.init "earth.jpg" "")) = true ∧
    (1 : Q) / 2 < (update_frame^[2] (OpenGLWindow.init "earth.jpg" "")).angle ∧
    GLCmd.rotatef ((2 : Q) / 2) 2 (-1) (-1) ∈
      paintGL (initializeGLRun envEarthStars
        (update_frame^[2] (OpenGLWindow.init "earth.jpg" ""))).1 800 600 :=
  ⟨(claim10_timer_before_init "earth.jpg" "" 2).2.2.2.1,
   (claim10_timer_before_init "earth.jpg" "" 2).2.2.2.2.2.1 (by norm_num),
   (claim10_timer_before_init "earth.jpg" "" 2).2.2.2.2.2.2⟩

/-- C6: whenever a background texture exists, the frame's background
quad, drawn under an orthographic projection spanning the whole
viewport, pairs texture coordinate (0,0) with screen corner (0,0),
(1,0) with (w,0), (1,1) with (w,h) and (0,1) with (0,h). -/
theorem claim6_background_quad_mapping (s : OpenGLWindow) (w h : Q) (b : Nat)
    (hbg : s.bg_texture = some b) :
    GLCmd.ortho2D 0 w 0 h ∈ paintGL s w h ∧
    ∃ pre suf, paintGL s w h = pre ++
      [GLCmd.beginQuads,
       GLCmd.texCoord2f 0 0, GLCmd.vertex2f 0 0,
       GLCmd.texCoord2f 1 0, GLCmd.vertex2f w 0,
       GLCmd.texCoord2f 1 1, GLCmd.vertex2f w h,
       GLCmd.texCoord2f 0 1, GLCmd.vertex2f 0 h,
       GLCmd.endPrim] ++ suf := by
  constructor
  · simp [paintGL, hbg, render_background]
  · refine ⟨[GLCmd.clear, GLCmd.loadIdentity,
      GLCmd.disableDepthTest, GLCmd.matrixModeProjection, GLCmd.pushMatrix,
      GLCmd.loadIdentity, GLCmd.ortho2D 0 w 0 h, GLCmd.matrixModeModelview,
      GLCmd.pushMatrix, GLCmd.loadIdentity, GLCmd.bindTexture (some b)],
      [GLCmd.matrixModeProjection, GLCmd.popMatrix, GLCmd.matrixModeModelview,
       GLCmd.popMatrix, GLCmd.enableDepthTest,
       GLCmd.translatef 0 0 (-(9/2)), GLCmd.rotatef s.angle 2 (-1) (-1),
       GLCmd.scalef 1 1 1] ++ draw_textured_sphere s.texture (3/2) 32 32, ?_⟩
    simp [paintGL, hbg, render_background]

/-- C6 witness: the mapping at a concrete state with background handle
2 and viewport 800 by 600. -/
theorem claim6_background_quad_mapping_witness :
    GLCmd.ortho2D 0 800 0 600 ∈
      paintGL { angle := 0, texture := some 1, texture_image := "earth.jpg",
                bg_texture := some 2, background_image := "stars.png",
                timerStarted := true, timerIntervalMs := 16,
                pendingUpdate := false } 800 600 :=
  (claim6_background_quad_mapping
    { angle := 0, texture := some 1, texture_image := "earth.jpg",
      bg_texture := some 2, background_image := "stars.png", timerStarted := true,
      timerIntervalMs := 16, pendingUpdate := false } 800 600 2 rfl).1

/-- C8: every frame, whatever the renderer state, creates exactly one
quadric, deletes exactly one, and the deletion follows the creation
within the same frame trace, so no quadric outlives its frame. -/
theorem claim8_quadric_per_frame (s : OpenGLWindow) (w h : Q) :
    (paintGL s w h).countP isNewQuadric = 1 ∧
    (paintGL s w h).countP isDeleteQuadric = 1 ∧
    ∃ pre suf, paintGL s w h = pre ++
      [GLCmd.newQuadric, GLCmd.quadricTexture, GLCmd.gluSphere (3/2) 32 32,
       GLCmd.deleteQuadric] ++ suf := by
  cases hbg : s.bg_texture with
  | none =>
      refine ⟨?_, ?_,
        ⟨[GLCmd.clear, GLCmd.loadIdentity,
          GLCmd.translatef 0 0 (-(9/2)), GLCmd.rotatef s.angle 2 (-1) (-1),
          GLCmd.scalef 1 1 1, GLCmd.bindTexture s.texture], [], ?_⟩⟩ <;>
      simp [paintGL, hbg, draw_textured_sphere, List.countP, List.countP.go,
        isNewQuadric, isDeleteQuadric]
  | some b =>
      refine ⟨?_, ?_,
        ⟨[GLCmd.clear, GLCmd.loadIdentity] ++ render_background (some b) w h ++
          [GLCmd.translatef 0 0 (-(9/2)), GLCmd.rotatef s.angle 2 (-1) (-1),
           GLCmd.scalef 1 1 1, GLCmd.bindTexture s.texture], [], ?_⟩⟩ <;>
      simp [paintGL, hbg, render_background, draw_textured_sphere, List.countP,
        List.countP.go, isNewQuadric, isDeleteQuadric]

/-- C7: with a background texture present, the frame trace contains
exactly one quad draw and it precedes the sphere draw; the depth-test
toggles occur exactly once each, bracketing the quad and finishing
before the sphere, so depth testing is off at the quad draw and on
again at the sphere draw; and interpreting the background pass on any
pipeline state in modelview mode returns the same current matrices and
stacks, changing nothing beyond re-enabling depth testing. -/
theorem claim7_background_pass (s : OpenGLWindow) (w h : Q) (b : Nat)
    (hbg : s.bg_texture = some b)
    (m : GLMachine) (hpm : m.projMode = false) :
    (paintGL s w h).countP isBeginQuads = 1 ∧
    (paintGL s w h).findIdx isBeginQuads < (paintGL s w h).findIdx isSphereCmd ∧
    (paintGL s w h).countP isDisableDepth = 1 ∧
    (paintGL s w h).countP isEnableDepth = 1 ∧
    (paintGL s w h).findIdx isDisableDepth < (paintGL s w h).findIdx isBeginQuads ∧
    (paintGL s w h).findIdx isBeginQuads < (paintGL s w h).findIdx isEnableDepth ∧
    (paintGL s w h).findIdx isEnableDepth < (paintGL s w h).findIdx isSphereCmd ∧
    (runCmds m ((paintGL s w h).take
      ((paintGL s w h).findIdx isBeginQuads + 1))).depthTest = false ∧
    (runCmds m ((paintGL s w h).take
      ((paintGL s w h).findIdx isSphereCmd))).depthTest = true ∧
    runCmds m (render_background s.bg_texture w h) =
      { m with projMode := false, depthTest := true } := by
  have hqi : (paintGL s w h).findIdx isBeginQuads = 11 := by
    simp [paintGL, hbg, render_background, draw_textured_sphere, List.findIdx,
      List.findIdx.go, isBeginQuads]
  have hsi : (paintGL s w h).findIdx isSphereCmd = 32 := by
    simp [paintGL, hbg, render_background, draw_textured_sphere, List.findIdx,
      List.findIdx.go, isSphereCmd]
  have hdi : (paintGL s w h).findIdx isDisableDepth = 2 := by
    simp [paintGL, hbg, render_background, draw_textured_sphere, List.findIdx,
      List.findIdx.go, isDisableDepth]
  have hei : (paintGL s w h).findIdx isEnableDepth = 25 := by
    simp [paintGL, hbg, render_background, draw_textured_sphere, List.findIdx,
      List.findIdx.go, isEnableDepth]
  refine ⟨?_, ?_, ?_, ?_, ?_, ?_, ?_, ?_, ?_, ?_⟩
  · simp [paintGL, hbg, render_background, draw_textured_sphere, List.countP,
      List.countP.go, isBeginQuads]
  · rw [hqi, hsi]; norm_num
  · simp [paintGL, hbg, render_background, draw_textured_sphere, List.countP,
      List.countP.go, isDisableDepth]
  · simp [paintGL, hbg, render_background, draw_textured_sphere, List.countP,
      List.countP.go, isEnableDepth]
  · rw [hdi, hqi]; norm_num
  · rw [hqi, hei]; norm_num
  · rw [hei, hsi]; norm_num
  · rw [hqi]
    simp [paintGL, hbg, render_background, draw_textured_sphere, runCmds, stepCmd,
      hpm, GLMachine.applyOp]
  · rw [hsi]
    simp [paintGL, hbg, render_background, draw_textured_sphere, runCmds, stepCmd,
      hpm, GLMachine.applyOp]
  · rfl

/-- C7 witness: the background pass at a concrete state, viewport and
pipeline machine. -/
theorem claim7_background_pass_witness :
    (paintGL { angle := 0, texture := some 1, texture_image := "earth.jpg",
               bg_texture := some 2, background_image := "stars.png",
               timerStarted := true, timerIntervalMs := 16,
               pendingUpdate := false } 800 600).countP isBeginQuads = 1 ∧
    runCmds { projMode := false, projCur := [], projStack := [],
              mvCur := [], mvStack := [], depthTest := true }
        (render_background (some 2) 800 600) =
      { projMode := false, projCur := [], projStack := [],
        mvCur := [], mvStack := [], depthTest := true } :=
  ⟨(claim7_background_pass
      { angle := 0, texture := some 1, texture_image := "earth.jpg",
        bg_texture := some 2, background_image := "stars.png", timerStarted := true,
        timerIntervalMs := 16, pendingUpdate := false } 800 600 2 rfl
      { projMode := false, projCur := [], projStack := [],
        mvCur := [], mvStack := [], depthTest := true } rfl).1,
   (claim7_background_pass
      { angle := 0, texture := some 1, texture_image := "earth.jpg",
        bg_texture := some 2, background_image := "stars.png", timerStarted := true,
        timerIntervalMs := 16, pendingUpdate := false } 800 600 2 rfl
      { projMode := false, projCur := [], projStack := [],
        mvCur := [], mvStack := [], depthTest := true } rfl).2.2.2.2.2.2.2.2.2⟩
